import Mathlib

/-!
Shallow embedding of the DingTalk channel plugin (message codec, token
cache, media transfer, inbound handler, stream listener) together with
proofs of the behavioral properties stated in the specification.

JavaScript values of type `string | undefined | null` are modelled as
`Option String`; JavaScript truthiness on such values is `jsTruthyStr`
(`undefined`, `null` and `""` are falsy).  Fallible host or network calls
are modelled as `Except String` oracles passed in as inputs, so every
embedded function is total and its control flow mirrors the source's
`try`/`catch` structure explicitly.
-/

/-- JavaScript truthiness of a `string | undefined | null` value:
`undefined`/`null` and the empty string are falsy. -/
def jsTruthyStr (s : Option String) : Bool :=
  match s with
  | some t => !(t == "")
  | none => false

/-- JavaScript `a || d` for a string-or-absent `a` with string default `d`:
returns `a` when truthy, else `d`. -/
def orElseStr (s : Option String) (d : String) : String :=
  match s with
  | some t => if t == "" then d else t
  | none => d

/-- JavaScript `String.prototype.trim`: strip leading and trailing
whitespace.  Defined over the character list so that it evaluates by
kernel reduction. -/
def jsTrim (s : String) : String :=
  String.mk (((s.data.dropWhile Char.isWhitespace).reverse.dropWhile Char.isWhitespace).reverse)

/-! ## Message codec (`extractMessageContent`) -/

/-- One entry of `data.content.richText`: `{type, text}` where the `text`
field may be absent. -/
structure RichTextPart where
  type : String
  text : Option String
deriving DecidableEq, Repr

/-- The fields of an inbound DingTalk event payload that
`extractMessageContent` reads.  `textContent` is `data.text?.content`,
the rest come from `data.content`. -/
structure EventData where
  msgtype : Option String
  textContent : Option String
  richText : Option (List RichTextPart)
  downloadCode : Option String
  recognition : Option String
  fileName : Option String
deriving DecidableEq, Repr

/-- The `MessageContent` record produced by the codec: normalized text,
optional media reference (the vendor download code), optional media type,
and the message type tag. -/
structure MessageContent where
  text : String
  mediaPath : Option String := none
  mediaType : Option String := none
  messageType : String
deriving DecidableEq, Repr

/-- `Array.prototype.join('')` over the `text` fields of the rich-text
segments whose `type` is `"text"`; an absent `text` field joins as `""`
(JavaScript `join` renders `undefined` as the empty string). -/
def richTextConcat (parts : List RichTextPart) : String :=
  String.join ((parts.filter (fun p => p.type == "text")).map (fun p => p.text.getD ""))

/-- Embedding of `extractMessageContent` (src/unnamed/part_000 lines
93-107), branch for branch.  `data.msgtype || 'text'` is
`orElseStr data.msgtype "text"`, and every `x || y` coalescing in the
source is `orElseStr`. -/
def extractMessageContent (data : EventData) : MessageContent :=
  let msgtype := orElseStr data.msgtype "text"
  if msgtype == "text" then
    { text := orElseStr (data.textContent.map jsTrim) "", messageType := "text" }
  else if msgtype == "richText" then
    let parts := data.richText.getD []
    let textParts := richTextConcat parts
    { text := orElseStr (some textParts) "[富文本消息]", messageType := "richText" }
  else if msgtype == "picture" then
    { text := "[图片]", mediaPath := data.downloadCode, mediaType := some "image",
      messageType := "picture" }
  else if msgtype == "audio" then
    { text := orElseStr data.recognition "[语音消息]", mediaPath := data.downloadCode,
      mediaType := some "audio", messageType := "audio" }
  else if msgtype == "video" then
    { text := "[视频]", mediaPath := data.downloadCode, mediaType := some "video",
      messageType := "video" }
  else if msgtype == "file" then
    { text := "[文件: " ++ orElseStr data.fileName "文件" ++ "]",
      mediaPath := data.downloadCode, mediaType := some "file", messageType := "file" }
  else
    { text := orElseStr (data.textContent.map jsTrim) ("[" ++ msgtype ++ "消息]"),
      messageType := msgtype }

/-- The §4.3 table of the specification, written row by row from its
words: per `msgtype`, the normalized text (with the placeholder rules),
the media reference and the media type.  This is the spec-side function
to be compared with `extractMessageContent`. -/
def extractContentSpecTable (data : EventData) : MessageContent :=
  let m := orElseStr data.msgtype "text"
  if m = "text" then
    -- trimmed content, no media fields
    { text := (data.textContent.map jsTrim).getD "", messageType := "text" }
  else if m = "richText" then
    -- concatenation of all type === "text" segments joined with no
    -- separator, or the placeholder if that concatenation is empty
    let cat := richTextConcat (data.richText.getD [])
    { text := if cat = "" then "[富文本消息]" else cat, messageType := "richText" }
  else if m = "picture" then
    -- placeholder label, downloadCode as media reference, type image
    { text := "[图片]", mediaPath := data.downloadCode, mediaType := some "image",
      messageType := "picture" }
  else if m = "audio" then
    -- speech-recognition transcript when present (non-empty), else placeholder
    { text :=
        match data.recognition with
        | some r => if r = "" then "[语音消息]" else r
        | none => "[语音消息]",
      mediaPath := data.downloadCode, mediaType := some "audio", messageType := "audio" }
  else if m = "video" then
    { text := "[视频]", mediaPath := data.downloadCode, mediaType := some "video",
      messageType := "video" }
  else if m = "file" then
    -- placeholder including the filename
    { text := "[文件: " ++ (if data.fileName.getD "" = "" then "文件" else data.fileName.getD "") ++ "]",
      mediaPath := data.downloadCode, mediaType := some "file", messageType := "file" }
  else
    -- original trimmed text if present, else a placeholder naming the type
    let t := (data.textContent.map jsTrim).getD ""
    { text := if t = "" then "[" ++ m ++ "消息]" else t, messageType := m }

/-! ## Token cache (`getAccessToken`) -/

/-- The module-level token cache: `accessToken` (initially `null`) and
`accessTokenExpiry` in epoch milliseconds (initially `0`). -/
structure TokenState where
  accessToken : Option String
  accessTokenExpiry : Nat
deriving DecidableEq, Repr

/-- The identity endpoint's response body: `{accessToken, expireIn}`
(`expireIn` in seconds). -/
structure FetchResult where
  accessToken : String
  expireIn : Nat
deriving DecidableEq, Repr

/-- Result of one `getAccessToken` call: the token handed to the caller,
the cache state afterwards, and whether a network refresh request was
made. -/
structure TokenCall where
  token : String
  state : TokenState
  requested : Bool
deriving DecidableEq, Repr

/-- Embedding of `getAccessToken` (src/unnamed/part_000 lines 43-57).
`now` is `Date.now()`; `fetch` is the response the identity endpoint
would return if the request is made.  The cached token is reused iff the
cache holds a truthy token whose expiry exceeds `now + 60000`; otherwise
one request is made and the cache is overwritten with expiry
`now + expireIn * 1000`. -/
def getAccessToken (st : TokenState) (now : Nat) (fetch : FetchResult) : TokenCall :=
  if jsTruthyStr st.accessToken && decide (now + 60000 < st.accessTokenExpiry) then
    { token := st.accessToken.getD "", state := st, requested := false }
  else
    { token := fetch.accessToken,
      state := { accessToken := some fetch.accessToken,
                 accessTokenExpiry := now + fetch.expireIn * 1000 },
      requested := true }

/-! ## Media upload (`uploadMedia`, src/src/media-utils.ts) -/

/-- DingTalk media types accepted by the upload endpoint. -/
inductive DingTalkMediaType where
  | image | voice | video | file
deriving DecidableEq, Repr

/-- `FILE_SIZE_LIMITS` (src/src/media-utils.ts lines 45-50): per-type
upload ceiling in bytes. -/
def FILE_SIZE_LIMITS (t : DingTalkMediaType) : Nat :=
  match t with
  | .image => 20 * 1024 * 1024
  | .voice => 2 * 1024 * 1024
  | .video => 20 * 1024 * 1024
  | .file => 20 * 1024 * 1024

/-- Outcome of `fsPromises.stat`: success with a size, or a thrown error
(distinguished by `err.code` only for logging). -/
inductive StatResult where
  | ok (size : Nat)
  | enoent
  | eacces
  | otherErr (msg : String)
deriving DecidableEq, Repr

/-- Body of the upload endpoint's response: `{errcode, media_id}`, both
possibly absent. -/
structure UploadResponse where
  errcode : Option Int
  mediaId : Option String
deriving DecidableEq, Repr

/-- Outcome of the `axios.post` upload request: a response body, or a
thrown network error. -/
inductive UploadNet where
  | ok (resp : UploadResponse)
  | netErr (msg : String)
deriving DecidableEq, Repr

/-- The external calls `uploadMedia` makes, supplied as an oracle:
the token fetch (may throw), the file stat, and the network upload. -/
structure UploadOracle where
  token : Except String String
  statR : StatResult
  net : UploadNet
deriving Repr

/-- Embedding of `uploadMedia` (src/src/media-utils.ts lines 66-132).
Returns the `media_id` (or `none`) together with a flag recording
whether the network upload request was made.  A thrown token error or
stat error is caught and yields `none` before any upload; a file whose
size exceeds `FILE_SIZE_LIMITS mediaType` yields `none` before any
upload; otherwise the upload is attempted and succeeds iff
`errcode === 0` and `media_id` is truthy. -/
def uploadMedia (o : UploadOracle) (mediaType : DingTalkMediaType) :
    Option String × Bool :=
  match o.token with
  | .error _ => (none, false)
  | .ok _ =>
    match o.statR with
    | .enoent => (none, false)
    | .eacces => (none, false)
    | .otherErr _ => (none, false)
    | .ok size =>
      if FILE_SIZE_LIMITS mediaType < size then
        (none, false)
      else
        match o.net with
        | .netErr _ => (none, true)
        | .ok resp =>
          if resp.errcode == some 0 && jsTruthyStr resp.mediaId then
            (resp.mediaId, true)
          else
            (none, true)

/-! ## Outbound markdown heuristic and title (`sendMessage`) -/

/-- The backtick character. -/
def backtickChar : Char := Char.ofNat 96

/-- The character class `[*_`#\[\]]` of the markdown-detection regex. -/
def mdBodyChars : List Char := ['*', '_', backtickChar, '#', '[', ']']

/-- The character class `[#*>-]` anchored at the start of the
markdown-detection regex. -/
def mdStartChars : List Char := ['#', '*', '>', '-']

/-- `/^[#*>-]|[*_`#\[\]]/.test(text)`: the text starts with one of
`# * > -` or contains one of the body-class characters. -/
def mdRegexTest (text : String) : Bool :=
  (match text.data with
   | [] => false
   | c :: _ => mdStartChars.contains c)
  || text.data.any (fun c => mdBodyChars.contains c)

/-- `hasMarkdownFeatures` of `sendMessage` (src/unnamed/part_000 line
147): the regex test, or the text contains a newline. -/
def hasMarkdownFeatures (text : String) : Bool :=
  mdRegexTest text || text.data.contains '\n'

/-- The `useMarkdown` decision of `sendMessage` (line 148):
`options.useMarkdown !== false && (options.useMarkdown ||
hasMarkdownFeatures)`, with the caller's flag modelled as
`Option Bool` (`none` = absent). -/
def sendUseMarkdown (override : Option Bool) (text : String) : Bool :=
  !(override == some false) && (override == some true || hasMarkdownFeatures text)

/-- The specification's markdown heuristic, in its own words: markdown
iff the text contains a newline, or starts with one of `# * > -`, or
contains any of the six body-class characters. -/
def specIsMarkdown (text : String) : Bool :=
  text.data.contains '\n'
  || (match text.data with
      | [] => false
      | c :: _ => mdStartChars.contains c)
  || text.data.any (fun c => mdBodyChars.contains c)

/-- The character class `[#*\s\->]` stripped from the head of the first
line when deriving a markdown title: `#`, `*`, whitespace, `-`, `>`. -/
def titleStripChar (c : Char) : Bool :=
  c == '#' || c == '*' || c.isWhitespace || c == '-' || c == '>'

/-- `text.split('\n')[0]`: the first line of the text. -/
def firstLine (text : String) : List Char :=
  text.data.takeWhile (fun c => !(c == '\n'))

/-- The markdown title computed by `sendMessage` (line 151):
`options.title || firstLine.replace(/^[#*\s\->]+/, '').slice(0, 20) ||
'Clawdbot 消息'`. -/
def deriveTitle (titleOpt : Option String) (text : String) : String :=
  orElseStr titleOpt
    (orElseStr (some (String.mk (((firstLine text).dropWhile titleStripChar).take 20)))
      "Clawdbot 消息")

/-- The specification's title rule, in its own words: the first line
with leading markdown markers stripped, truncated to 20 characters; the
fixed fallback title when the stripped first line is empty. -/
def specTitle (text : String) : String :=
  let stripped := (firstLine text).dropWhile titleStripChar
  if stripped = [] then "Clawdbot 消息" else String.mk (stripped.take 20)

/-! ## Media download (`downloadMedia`) -/

/-- The external calls `downloadMedia` makes, supplied as an oracle:
the token fetch, the download-URL request (throws, or returns a body
whose `downloadUrl` may be absent), the binary fetch (throws, or returns
the optional `content-type` header), and the temp-file write. -/
structure DownloadOracle where
  token : Except String String
  urlResp : Except String (Option String)
  fetchR : Except String (Option String)
  writeR : Except String Unit
deriving Repr

/-- Embedding of `downloadMedia` (src/unnamed/part_000 lines 60-83).
`tempPath` stands for the `os.tmpdir()`-based scratch path.  Every
thrown step is caught by the surrounding `try`, yielding `none`; a
response without a truthy `downloadUrl` yields `none`; on success the
scratch path and the mime type (`content-type` header or
`application/octet-stream`) are returned. -/
def downloadMedia (o : DownloadOracle) (tempPath : String) :
    Option (String × String) :=
  match o.token with
  | .error _ => none
  | .ok _ =>
    match o.urlResp with
    | .error _ => none
    | .ok url =>
      if !(jsTruthyStr url) then none
      else
        match o.fetchR with
        | .error _ => none
        | .ok header =>
          let contentType := orElseStr header "application/octet-stream"
          match o.writeR with
          | .error _ => none
          | .ok _ => some (tempPath, contentType)

/-! ## Inbound handler (`handleDingTalkMessage`) -/

/-- The route returned by `rt.channel.routing.resolveAgentRoute`. -/
structure RouteInfo where
  agentId : String
  sessionKey : String
  mainSessionKey : String
deriving DecidableEq, Repr

/-- Observable effects of one `handleDingTalkMessage` run: how many times
each external collaborator was invoked, whether the inbound context
(envelope) was built and with which `MediaPath`, and the cleanup flags of
the `finally` block. -/
structure HandlerTrace where
  downloadAttempts : Nat
  routeCalls : Nat
  recordCalls : Nat
  thinkingAttempts : Nat
  dispatchCalls : Nat
  ctxBuilt : Bool
  ctxMediaPath : Option String
  idleMarked : Bool
  unlinkCalls : Nat
deriving DecidableEq, Repr

/-- The trace of a run that performed no external effect. -/
def emptyTrace : HandlerTrace :=
  { downloadAttempts := 0, routeCalls := 0, recordCalls := 0, thinkingAttempts := 0,
    dispatchCalls := 0, ctxBuilt := false, ctxMediaPath := none, idleMarked := false,
    unlinkCalls := 0 }

/-- Result of one `handleDingTalkMessage` run: its effect trace and its
outcome (`Except.error` models an exception propagating to the stream
listener). -/
structure HandlerResult where
  trace : HandlerTrace
  outcome : Except String Unit
deriving Repr

/-- Inputs of one `handleDingTalkMessage` run: the event payload, the
account configuration fields the handler reads, and oracles for each
external call (media download steps, route resolution, session
recording, the thinking-message send, reply dispatch, the temp file's
existence and its deletion). -/
structure HandlerInput where
  data : EventData
  robotCode : Option String
  showThinking : Option Bool
  download : DownloadOracle
  tempPath : String
  route : Except String RouteInfo
  record : Except String Unit
  thinkingSend : Except String Unit
  dispatch : Except String Unit
  fileExists : Bool
  unlinkR : Except String Unit
deriving Repr

/-- Embedding of `handleDingTalkMessage` (src/unnamed/part_000 lines
159-260), step for step:

1. decode; `if (!content.text) return;`
2. `if (content.mediaPath && dingtalkConfig.robotCode)` attempt one
   `downloadMedia`; a `none` result leaves `mediaPath` undefined;
3. `resolveAgentRoute` — a thrown error propagates;
4. build the envelope/context (its `MediaPath` is the downloaded path or
   undefined) and `recordInboundSession` — a thrown error propagates;
5. unless `showThinking === false`, attempt the thinking send, whose
   failure is caught and only logged;
6. `dispatchReplyFromConfig` inside `try`/`finally`: the `finally` marks
   the dispatcher idle and, when a temp path exists on disk, attempts
   `unlinkSync` with its own error swallowed; the dispatch outcome (ok or
   thrown) is the handler's outcome. -/
def handleDingTalkMessage (inp : HandlerInput) : HandlerResult :=
  let content := extractMessageContent inp.data
  if content.text == "" then
    { trace := emptyTrace, outcome := Except.ok () }
  else
    let attemptDownload := jsTruthyStr content.mediaPath && jsTruthyStr inp.robotCode
    let dlResult : Option (String × String) :=
      if attemptDownload then downloadMedia inp.download inp.tempPath else none
    let downloadAttempts := if attemptDownload then 1 else 0
    let mediaPath : Option String := dlResult.map Prod.fst
    match inp.route with
    | Except.error e =>
      { trace := { emptyTrace with downloadAttempts := downloadAttempts, routeCalls := 1 },
        outcome := Except.error e }
    | Except.ok _ =>
      match inp.record with
      | Except.error e =>
        let tr := { emptyTrace with
          downloadAttempts := downloadAttempts
          routeCalls := 1
          recordCalls := 1
          ctxBuilt := true
          ctxMediaPath := mediaPath }
        { trace := tr, outcome := Except.error e }
      | Except.ok _ =>
        let thinkingAttempts := if inp.showThinking == some false then 0 else 1
        let unlinkCalls :=
          if jsTruthyStr mediaPath && inp.fileExists then 1 else 0
        let tr : HandlerTrace := {
          downloadAttempts := downloadAttempts
          routeCalls := 1
          recordCalls := 1
          thinkingAttempts := thinkingAttempts
          dispatchCalls := 1
          ctxBuilt := true
          ctxMediaPath := mediaPath
          idleMarked := true
          unlinkCalls := unlinkCalls }
        { trace := tr, outcome := inp.dispatch }

/-! ## Stream listener (`startAccount` callback) -/

/-- One received stream frame together with the outcomes of the two
fallible steps the callback runs on it: `JSON.parse(res.data)` and the
inbound handler. -/
structure Frame where
  messageId : Option String
  parsed : Except String Unit
  handled : Except String Unit
deriving Repr

/-- One `socketCallBackResponse(messageId, {success})` acknowledgment. -/
structure Ack where
  messageId : String
  success : Bool
deriving DecidableEq, Repr

/-- Embedding of the `registerCallbackListener` callback
(src/unnamed/part_000 lines 302-313): parse, handle, acknowledge with
`success: true`; any thrown error is caught and acknowledged with
`success: false`; without a `messageId` no acknowledgment is sent.  The
function is total: no exception escapes the callback. -/
def processFrame (f : Frame) : List Ack :=
  match f.parsed with
  | Except.error _ =>
    match f.messageId with
    | some m => [{ messageId := m, success := false }]
    | none => []
  | Except.ok _ =>
    match f.handled with
    | Except.error _ =>
      match f.messageId with
      | some m => [{ messageId := m, success := false }]
      | none => []
    | Except.ok _ =>
      match f.messageId with
      | some m => [{ messageId := m, success := true }]
      | none => []

/-- The listener over a whole sequence of received frames: each frame is
processed by `processFrame` independently of the outcomes of the earlier
ones. -/
def processFrames (fs : List Frame) : List Ack :=
  (fs.map processFrame).flatten

/-! ## Concrete sample inputs used to witness the theorems -/

/-- A handler input whose event decodes to empty text (a `text` payload
with no content); all oracles are inert. -/
def sampleEmptyTextInput : HandlerInput :=
  { data := { msgtype := some "text", textContent := none, richText := none,
              downloadCode := none, recognition := none, fileName := none },
    robotCode := none, showThinking := none,
    download := { token := Except.error "unused", urlResp := Except.error "unused",
                  fetchR := Except.error "unused", writeR := Except.error "unused" },
    tempPath := "/tmp/dingtalk_1.bin",
    route := Except.error "unused", record := Except.error "unused",
    thinkingSend := Except.ok (), dispatch := Except.ok (),
    fileExists := false, unlinkR := Except.ok () }

/-- A download oracle whose token fetch throws. -/
def sampleFailingDownload : DownloadOracle :=
  { token := Except.error "network down", urlResp := Except.ok none,
    fetchR := Except.ok none, writeR := Except.ok () }

/-- A group picture event with a valid download code and configured
robot code whose media download fails; routing, recording and dispatch
succeed. -/
def samplePictureFailInput : HandlerInput :=
  { data := { msgtype := some "picture", textContent := none, richText := none,
              downloadCode := some "dc1", recognition := none, fileName := none },
    robotCode := some "robot1", showThinking := some false,
    download := sampleFailingDownload,
    tempPath := "/tmp/dingtalk_2.png",
    route := Except.ok { agentId := "a", sessionKey := "s", mainSessionKey := "ms" },
    record := Except.ok (),
    thinkingSend := Except.ok (), dispatch := Except.ok (),
    fileExists := false, unlinkR := Except.ok () }

/-- A download oracle for which every step succeeds. -/
def sampleOkDownload : DownloadOracle :=
  { token := Except.ok "tok", urlResp := Except.ok (some "https://dl"),
    fetchR := Except.ok (some "image/png"), writeR := Except.ok () }

/-- A picture event whose media download succeeds, whose temp file still
exists after the reply cycle, and whose reply dispatch throws. -/
def samplePictureOkInput : HandlerInput :=
  { data := { msgtype := some "picture", textContent := none, richText := none,
              downloadCode := some "dc2", recognition := none, fileName := none },
    robotCode := some "robot1", showThinking := none,
    download := sampleOkDownload,
    tempPath := "/tmp/dingtalk_3.png",
    route := Except.ok { agentId := "a", sessionKey := "s", mainSessionKey := "ms" },
    record := Except.ok (),
    thinkingSend := Except.error "thinking failed", dispatch := Except.error "boom",
    fileExists := true, unlinkR := Except.error "unlink failed" }

/-- A frame whose body is malformed JSON, with a `messageId`. -/
def sampleBadFrame : Frame :=
  { messageId := some "m1", parsed := Except.error "bad json", handled := Except.ok () }

/-- A well-formed frame whose handling succeeds. -/
def sampleGoodFrame : Frame :=
  { messageId := some "m2", parsed := Except.ok (), handled := Except.ok () }

/-! ## Helper lemmas -/

theorem orElseStr_some (t d : String) : orElseStr (some t) d = if t = "" then d else t := by
  by_cases h : t = "" <;> simp [orElseStr, h]

theorem orElseStr_none (d : String) : orElseStr none d = d := rfl

theorem stringMk_nil : String.mk [] = "" := rfl

theorem orElseStr_getD_empty (o : Option String) : orElseStr o "" = o.getD "" := by
  cases o with
  | none => rfl
  | some t => by_cases h : t = "" <;> simp [orElseStr, h]

/-! ## Claims about the message codec -/

/-- C1: for every inbound event, `extractMessageContent` returns exactly
the per-msgtype normalization of the §4.3 table (trimmed text for
`text`; joined text segments or placeholder for `richText`; placeholder
labels, `downloadCode` media reference and respective media type for
`picture`/`audio`/`video`/`file`, with the speech-recognition transcript
when present for `audio` and the filename in the `file` placeholder; and
for any other msgtype the original trimmed text if present, else a
placeholder naming that type, with no media fields). -/
theorem extractMessageContent_matches_specTable (data : EventData) :
    extractMessageContent data = extractContentSpecTable data := by
  unfold extractMessageContent extractContentSpecTable
  by_cases h1 : orElseStr data.msgtype "text" = "text"
  · simp [h1, orElseStr_getD_empty]
  · by_cases h2 : orElseStr data.msgtype "text" = "richText"
    · simp [h1, h2, orElseStr_some]
    · by_cases h3 : orElseStr data.msgtype "text" = "picture"
      · simp [h1, h2, h3]
      · by_cases h4 : orElseStr data.msgtype "text" = "audio"
        · cases hr : data.recognition with
          | none => simp [h1, h2, h3, h4, hr, orElseStr_none]
          | some r =>
            by_cases hre : r = "" <;> simp [h1, h2, h3, h4, hr, orElseStr_some, hre]
        · by_cases h5 : orElseStr data.msgtype "text" = "video"
          · simp [h1, h2, h3, h4, h5]
          · by_cases h6 : orElseStr data.msgtype "text" = "file"
            · cases hf : data.fileName with
              | none => simp [h1, h2, h3, h4, h5, h6, hf, orElseStr_none]
              | some f =>
                by_cases hfe : f = "" <;>
                  simp [h1, h2, h3, h4, h5, h6, hf, orElseStr_some, hfe]
            · cases ht : data.textContent with
              | none => simp [h1, h2, h3, h4, h5, h6, ht, orElseStr_none]
              | some s =>
                by_cases hs : jsTrim s = "" <;>
                  simp [h1, h2, h3, h4, h5, h6, ht, orElseStr_some, hs]

/-- C10: a payload with no `msgtype` field at all is treated exactly as
`msgtype "text"`: the trimmed text content (or the empty string) with
messageType `"text"` and no media fields. -/
theorem extractMessageContent_missing_msgtype (data : EventData) (h : data.msgtype = none) :
    extractMessageContent data =
      extractMessageContent { data with msgtype := some "text" } ∧
    extractMessageContent data =
      { text := orElseStr (data.textContent.map jsTrim) "",
        mediaPath := none, mediaType := none, messageType := "text" } := by
  constructor <;> simp [extractMessageContent, h, orElseStr]

/-- Witness for C10 at a concrete payload without a `msgtype` field. -/
theorem extractMessageContent_missing_msgtype_witness :
    extractMessageContent ⟨none, some " hi ", none, none, none, none⟩ =
      { text := "hi", mediaPath := none, mediaType := none, messageType := "text" } :=
  ((extractMessageContent_missing_msgtype
      ⟨none, some " hi ", none, none, none, none⟩ rfl).2).trans (by decide)

/-! ## Claims about the token cache -/

/-- C2 counterexample: the claim's consequence "a token is never
returned to a caller within 60 seconds of its stored expiry" is false.
With an empty cache at `now = 0` and an identity-endpoint response with
`expireIn = 30` seconds, the refresh path stores expiry `30000` ms and
returns the fresh token, which is therefore handed to the caller with
only 30 seconds of validity left. -/
theorem getAccessToken_margin_cex :
    (getAccessToken { accessToken := none, accessTokenExpiry := 0 } 0
        { accessToken := "tok", expireIn := 30 }).token = "tok" ∧
    (getAccessToken { accessToken := none, accessTokenExpiry := 0 } 0
        { accessToken := "tok", expireIn := 30 }).state.accessTokenExpiry = 30000 ∧
    ¬ (0 + 60000 <
        (getAccessToken { accessToken := none, accessTokenExpiry := 0 } 0
          { accessToken := "tok", expireIn := 30 }).state.accessTokenExpiry) := by
  refine ⟨rfl, rfl, by decide⟩

/-- C2 (amended): if a token is cached (truthy) and its stored expiry is
more than 60000 ms after the current time, the cached value is returned
unchanged with no refresh request; otherwise exactly one refresh request
is made and the returned token is stored with expiry
`now + expireIn * 1000`.  A token returned *from the cache* always has
more than 60 seconds of remaining validity; a freshly fetched token is
returned regardless of how small its `expireIn` is. -/
theorem getAccessToken_behavior (st : TokenState) (now : Nat) (fetch : FetchResult) :
    (jsTruthyStr st.accessToken = true → now + 60000 < st.accessTokenExpiry →
      getAccessToken st now fetch =
        { token := st.accessToken.getD "", state := st, requested := false }) ∧
    (jsTruthyStr st.accessToken = false ∨ st.accessTokenExpiry ≤ now + 60000 →
      getAccessToken st now fetch =
        { token := fetch.accessToken,
          state := { accessToken := some fetch.accessToken,
                     accessTokenExpiry := now + fetch.expireIn * 1000 },
          requested := true }) ∧
    ((getAccessToken st now fetch).requested = false →
      now + 60000 < (getAccessToken st now fetch).state.accessTokenExpiry) := by
  unfold getAccessToken
  by_cases h1 : jsTruthyStr st.accessToken = true
  · by_cases h2 : now + 60000 < st.accessTokenExpiry
    · simp [h1, h2]
    · simp [h1, h2]
  · simp [h1]

/-- Witness for C2 (amended): a concrete cache hit returns the cached
token without a request, and a concrete near-expiry cache performs the
refresh. -/
theorem getAccessToken_behavior_witness :
    getAccessToken { accessToken := some "cached", accessTokenExpiry := 200000 } 100000
        { accessToken := "new", expireIn := 7200 } =
      { token := "cached",
        state := { accessToken := some "cached", accessTokenExpiry := 200000 },
        requested := false } ∧
    getAccessToken { accessToken := some "cached", accessTokenExpiry := 160000 } 100000
        { accessToken := "new", expireIn := 7200 } =
      { token := "new",
        state := { accessToken := some "new", accessTokenExpiry := 7300000 },
        requested := true } :=
  ⟨(getAccessToken_behavior
      { accessToken := some "cached", accessTokenExpiry := 200000 } 100000
      { accessToken := "new", expireIn := 7200 }).1 (by decide) (by decide),
   ((getAccessToken_behavior
      { accessToken := some "cached", accessTokenExpiry := 160000 } 100000
      { accessToken := "new", expireIn := 7200 }).2.1 (Or.inr (by decide))).trans (by decide)⟩

/-! ## Claims about the media upload size gate -/

/-- C3: the per-type ceilings are 20 MiB for image, video and file and
2 MiB for voice; `uploadMedia` returns `null` without attempting the
network upload whenever the file size strictly exceeds the ceiling, and
the gate is an exact boundary: at `size = limit` the upload is
attempted, at `size = limit + 1` the call returns `null` with no upload
attempt. -/
theorem uploadMedia_size_gate (tok : String) (net : UploadNet)
    (t : DingTalkMediaType) (size : Nat) :
    FILE_SIZE_LIMITS .image = 20 * 1024 * 1024 ∧
    FILE_SIZE_LIMITS .video = 20 * 1024 * 1024 ∧
    FILE_SIZE_LIMITS .file = 20 * 1024 * 1024 ∧
    FILE_SIZE_LIMITS .voice = 2 * 1024 * 1024 ∧
    (FILE_SIZE_LIMITS t < size →
      uploadMedia { token := .ok tok, statR := .ok size, net := net } t = (none, false)) ∧
    (size ≤ FILE_SIZE_LIMITS t →
      (uploadMedia { token := .ok tok, statR := .ok size, net := net } t).2 = true) ∧
    (uploadMedia { token := .ok tok, statR := .ok (FILE_SIZE_LIMITS t), net := net } t).2
      = true ∧
    uploadMedia { token := .ok tok, statR := .ok (FILE_SIZE_LIMITS t + 1), net := net } t
      = (none, false) := by
  refine ⟨rfl, rfl, rfl, rfl, ?_, ?_, ?_, ?_⟩
  · intro h
    simp [uploadMedia, h]
  · intro h
    have h2 : ¬ FILE_SIZE_LIMITS t < size := by omega
    cases net with
    | netErr m => simp [uploadMedia, h2]
    | ok resp =>
      by_cases h3 : (resp.errcode == some 0 && jsTruthyStr resp.mediaId) = true <;>
        simp [uploadMedia, h2, h3]
  · have h2 : ¬ FILE_SIZE_LIMITS t < FILE_SIZE_LIMITS t := by omega
    cases net with
    | netErr m => simp [uploadMedia, h2]
    | ok resp =>
      by_cases h3 : (resp.errcode == some 0 && jsTruthyStr resp.mediaId) = true <;>
        simp [uploadMedia, h2, h3]
  · have h2 : FILE_SIZE_LIMITS t < FILE_SIZE_LIMITS t + 1 := by omega
    simp [uploadMedia, h2]

/-- Witness for C3 at a concrete rejected upload: a 20 MiB + 1 byte
image is rejected with no upload attempt. -/
theorem uploadMedia_size_gate_witness :
    uploadMedia
        { token := .ok "tok", statR := .ok (20 * 1024 * 1024 + 1),
          net := .ok { errcode := some 0, mediaId := some "m1" } }
        .image = (none, false) :=
  (uploadMedia_size_gate "tok" (.ok { errcode := some 0, mediaId := some "m1" })
    .image (20 * 1024 * 1024 + 1)).2.2.2.2.1 (by decide)

/-! ## Claims about the outbound markdown heuristic and title -/

/-- C4: with no caller override the text is classified as markdown iff
it contains a newline, or starts with one of `# * > -`, or contains any
of the six body-class characters; an explicit caller flag overrides the
heuristic in both directions. -/
theorem sendMessage_markdown_heuristic (text : String) :
    sendUseMarkdown none text = specIsMarkdown text ∧
    sendUseMarkdown (some true) text = true ∧
    sendUseMarkdown (some false) text = false := by
  refine ⟨?_, rfl, rfl⟩
  unfold sendUseMarkdown specIsMarkdown hasMarkdownFeatures mdRegexTest
  cases text.data with
  | nil => simp
  | cons c cs =>
    simp [Bool.or_comm, Bool.or_assoc, Bool.or_left_comm]

/-- C5: when a message is sent as markdown with no caller-supplied
title, the title is the first line with leading markdown markers
stripped, truncated to 20 characters, or the fixed fallback title when
the stripped first line is empty. -/
theorem sendMessage_title_derivation (text : String) :
    deriveTitle none text = specTitle text := by
  unfold deriveTitle specTitle
  simp only [orElseStr_none, orElseStr_some]
  by_cases h : (firstLine text).dropWhile titleStripChar = []
  · rw [h]
    simp [stringMk_nil]
  · have htake : ¬ ((firstLine text).dropWhile titleStripChar).take 20 = [] := by
      simp [List.take_eq_nil_iff, h]
    have hmk : ¬ String.mk (((firstLine text).dropWhile titleStripChar).take 20) = "" := by
      intro hc
      exact htake (by simpa using congrArg String.data hc)
    simp [h, hmk]

/-! ## Helper lemmas about nonempty codec text -/

theorem eq_empty_of_data_nil (s : String) (h : s.data = []) : s = "" := by
  cases s with
  | mk l => cases h; rfl

theorem string_append_ne_empty_left (a b : String) (ha : ¬ a = "") : ¬ (a ++ b) = "" := by
  intro hc
  apply ha
  have hd := congrArg String.data hc
  rw [String.data_append] at hd
  exact eq_empty_of_data_nil a (List.append_eq_nil.mp hd).1

theorem orElseStr_ne_empty (o : Option String) (d : String) (hd : ¬ d = "") :
    ¬ orElseStr o d = "" := by
  cases o with
  | none => simpa [orElseStr]
  | some t => by_cases h : t = "" <;> simp [orElseStr, h, hd]

/-- Any codec output carrying a truthy media reference has nonempty
text: the `picture`/`audio`/`video`/`file` branches are the only ones
setting `mediaPath`, and each produces a nonempty placeholder (or a
nonempty transcript). -/
theorem media_truthy_text_ne (data : EventData)
    (h : jsTruthyStr (extractMessageContent data).mediaPath = true) :
    ((extractMessageContent data).text == "") = false := by
  unfold extractMessageContent at h ⊢
  by_cases h1 : orElseStr data.msgtype "text" = "text"
  · simp [h1, jsTruthyStr] at h
  · by_cases h2 : orElseStr data.msgtype "text" = "richText"
    · simp [h1, h2, jsTruthyStr] at h
    · by_cases h3 : orElseStr data.msgtype "text" = "picture"
      · simp [h1, h2, h3]
      · by_cases h4 : orElseStr data.msgtype "text" = "audio"
        · simp [h1, h2, h3, h4, beq_eq_false_iff_ne]
          exact orElseStr_ne_empty data.recognition "[语音消息]" (by decide)
        · by_cases h5 : orElseStr data.msgtype "text" = "video"
          · simp [h1, h2, h3, h4, h5]
          · by_cases h6 : orElseStr data.msgtype "text" = "file"
            · simp [h1, h2, h3, h4, h5, h6, beq_eq_false_iff_ne]
              exact string_append_ne_empty_left _ "]"
                (string_append_ne_empty_left "[文件: " _ (by decide))
            · simp [h1, h2, h3, h4, h5, h6, jsTruthyStr] at h

/-! ## Claims about the inbound handler -/

/-- C6: an inbound event whose decoded text is empty makes the handler
return immediately without error: no route resolution, no session
recording, no thinking message and no dispatch call. -/
theorem handler_empty_text_short_circuit (inp : HandlerInput)
    (h : (extractMessageContent inp.data).text = "") :
    handleDingTalkMessage inp = { trace := emptyTrace, outcome := Except.ok () } := by
  unfold handleDingTalkMessage
  simp [h]

/-- Witness for C6 at a concrete `text` event with no content. -/
theorem handler_empty_text_short_circuit_witness :
    handleDingTalkMessage sampleEmptyTextInput =
      { trace := emptyTrace, outcome := Except.ok () } :=
  handler_empty_text_short_circuit sampleEmptyTextInput rfl

/-- C7: every failure inside `downloadMedia` (token error, download-URL
request error, missing/falsy `downloadUrl`, binary-fetch error, write
error) yields `none` — never a propagated exception; and an event with a
truthy media reference and a truthy configured `robotCode` makes exactly
one download attempt, after which, when the download returned `none` and
routing/recording succeed, the envelope is still built and dispatched
with `MediaPath` undefined. -/
theorem downloadMedia_failure_graceful (o : DownloadOracle) (tp : String)
    (inp : HandlerInput) :
    (o.token.isOk = false → downloadMedia o tp = none) ∧
    (o.urlResp.isOk = false → downloadMedia o tp = none) ∧
    (∀ u, o.urlResp = Except.ok u → jsTruthyStr u = false → downloadMedia o tp = none) ∧
    (o.fetchR.isOk = false → downloadMedia o tp = none) ∧
    (o.writeR.isOk = false → downloadMedia o tp = none) ∧
    (jsTruthyStr (extractMessageContent inp.data).mediaPath = true →
     jsTruthyStr inp.robotCode = true →
      (handleDingTalkMessage inp).trace.downloadAttempts = 1) ∧
    (jsTruthyStr (extractMessageContent inp.data).mediaPath = true →
     jsTruthyStr inp.robotCode = true →
     downloadMedia inp.download inp.tempPath = none →
     inp.route.isOk = true → inp.record = Except.ok () →
      (handleDingTalkMessage inp).trace.ctxBuilt = true ∧
      (handleDingTalkMessage inp).trace.ctxMediaPath = none ∧
      (handleDingTalkMessage inp).trace.dispatchCalls = 1) := by
  refine ⟨?_, ?_, ?_, ?_, ?_, ?_, ?_⟩
  · intro h
    rcases hT : o.token with e | tk
    · simp [downloadMedia, hT]
    · rw [hT] at h; simp [Except.isOk, Except.toBool] at h
  · intro h
    rcases hT : o.token with e | tk
    · simp [downloadMedia, hT]
    · rcases hU : o.urlResp with e | u
      · simp [downloadMedia, hT, hU]
      · rw [hU] at h; simp [Except.isOk, Except.toBool] at h
  · intro u hU hu
    rcases hT : o.token with e | tk
    · simp [downloadMedia, hT]
    · simp [downloadMedia, hT, hU, hu]
  · intro h
    rcases hT : o.token with e | tk
    · simp [downloadMedia, hT]
    · rcases hU : o.urlResp with e | u
      · simp [downloadMedia, hT, hU]
      · by_cases hu : jsTruthyStr u = true
        · rcases hF : o.fetchR with e | hd
          · simp [downloadMedia, hT, hU, hu, hF]
          · rw [hF] at h; simp [Except.isOk, Except.toBool] at h
        · have hv : jsTruthyStr u = false := by simpa using hu
          simp [downloadMedia, hT, hU, hv]
  · intro h
    rcases hT : o.token with e | tk
    · simp [downloadMedia, hT]
    · rcases hU : o.urlResp with e | u
      · simp [downloadMedia, hT, hU]
      · by_cases hu : jsTruthyStr u = true
        · rcases hF : o.fetchR with e | hd
          · simp [downloadMedia, hT, hU, hu, hF]
          · rcases hW : o.writeR with e | w
            · simp [downloadMedia, hT, hU, hu, hF, hW]
            · rw [hW] at h; simp [Except.isOk, Except.toBool] at h
        · have hv : jsTruthyStr u = false := by simpa using hu
          simp [downloadMedia, hT, hU, hv]
  · intro hm hrc
    have htext := media_truthy_text_ne inp.data hm
    unfold handleDingTalkMessage
    rcases hR : inp.route with e | r
    · simp [htext, hm, hrc, hR]
    · rcases hRec : inp.record with e | v
      · simp [htext, hm, hrc, hR, hRec]
      · simp [htext, hm, hrc, hR, hRec]
  · intro hm hrc hd hro hre
    have htext := media_truthy_text_ne inp.data hm
    unfold handleDingTalkMessage
    rcases hR : inp.route with e | r
    · rw [hR] at hro; simp [Except.isOk, Except.toBool] at hro
    · simp [htext, hm, hrc, hR, hre, hd]

/-- Witness for C7: a concrete failing download yields `none`, and a
concrete group picture event with that failing download still dispatches
with no `MediaPath`. -/
theorem downloadMedia_failure_graceful_witness :
    downloadMedia sampleFailingDownload "/tmp/dingtalk_2.png" = none ∧
    (handleDingTalkMessage samplePictureFailInput).trace.downloadAttempts = 1 ∧
    (handleDingTalkMessage samplePictureFailInput).trace.ctxBuilt = true ∧
    (handleDingTalkMessage samplePictureFailInput).trace.ctxMediaPath = none ∧
    (handleDingTalkMessage samplePictureFailInput).trace.dispatchCalls = 1 := by
  have h := downloadMedia_failure_graceful sampleFailingDownload "/tmp/dingtalk_2.png"
    samplePictureFailInput
  have h7 := h.2.2.2.2.2.2 (by decide) (by decide) (by decide) (by decide) rfl
  exact ⟨h.1 (by decide), h.2.2.2.2.2.1 (by decide) (by decide), h7.1, h7.2.1, h7.2.2⟩

/-- C9: once an event's temp media file was downloaded, after the reply
dispatch cycle the dispatcher is marked idle and the file deletion is
attempted on both dispatch outcomes (provided the file still exists and
its path is truthy); the handler's outcome is exactly the dispatch
outcome, and the deletion oracle's own error never changes the result
(it is swallowed). -/
theorem handler_cleanup (inp : HandlerInput) (p m : String)
    (hm : jsTruthyStr (extractMessageContent inp.data).mediaPath = true)
    (hrc : jsTruthyStr inp.robotCode = true)
    (hd : downloadMedia inp.download inp.tempPath = some (p, m))
    (hro : inp.route.isOk = true) (hre : inp.record = Except.ok ()) :
    (handleDingTalkMessage inp).trace.idleMarked = true ∧
    (handleDingTalkMessage inp).outcome = inp.dispatch ∧
    ((handleDingTalkMessage inp).trace.unlinkCalls =
      if jsTruthyStr (some p) && inp.fileExists then 1 else 0) ∧
    (∀ u, handleDingTalkMessage { inp with unlinkR := u } = handleDingTalkMessage inp) := by
  have htext := media_truthy_text_ne inp.data hm
  refine ⟨?_, ?_, ?_, fun u => rfl⟩ <;>
    (unfold handleDingTalkMessage
     rcases hR : inp.route with e | r
     · rw [hR] at hro; simp [Except.isOk, Except.toBool] at hro
     · simp [htext, hm, hrc, hR, hre, hd])

/-- Witness for C9 at a concrete successful download whose dispatch
throws: idle is marked, the deletion is attempted, and the thrown
dispatch error is the handler outcome. -/
theorem handler_cleanup_witness :
    (handleDingTalkMessage samplePictureOkInput).trace.idleMarked = true ∧
    (handleDingTalkMessage samplePictureOkInput).outcome = Except.error "boom" ∧
    (handleDingTalkMessage samplePictureOkInput).trace.unlinkCalls = 1 := by
  have h := handler_cleanup samplePictureOkInput "/tmp/dingtalk_3.png" "image/png"
    (by decide) (by decide) (by decide) (by decide) rfl
  exact ⟨h.1, h.2.1, h.2.2.1.trans (by decide)⟩

/-! ## Claim about the stream listener -/

/-- C8: a frame with a `messageId` is always acknowledged exactly once,
with `success: true` iff both the JSON parse and the handler completed
without throwing (`success: false` on any exception, including malformed
frame JSON); no exception escapes the callback, and the listener
processes every subsequent frame independently. -/
theorem stream_frame_ack (f : Frame) (m : String) (rest : List Frame)
    (h : f.messageId = some m) :
    processFrame f = [{ messageId := m, success := f.parsed.isOk && f.handled.isOk }] ∧
    processFrames (f :: rest) = processFrame f ++ processFrames rest := by
  constructor
  · unfold processFrame
    rcases hP : f.parsed with e | u
    · simp [h, hP, Except.isOk, Except.toBool]
    · rcases hH : f.handled with e | v <;> simp [h, hP, hH, Except.isOk, Except.toBool]
  · simp [processFrames]

/-- Witness for C8: a malformed frame is negatively acknowledged and the
following well-formed frame is still processed and positively
acknowledged. -/
theorem stream_frame_ack_witness :
    processFrame sampleBadFrame = [{ messageId := "m1", success := false }] ∧
    processFrames [sampleBadFrame, sampleGoodFrame] =
      [{ messageId := "m1", success := false }, { messageId := "m2", success := true }] := by
  have h := stream_frame_ack sampleBadFrame "m1" [sampleGoodFrame] rfl
  exact ⟨h.1.trans (by decide), (h.2.trans (by decide) : _)⟩
